import Mathlib

/-!
Shallow embedding of `src/lib/repository.ts` of hashicorp/cdktf-repository-manager.

The sources contain two revisions of the module:
* the earlier revision (`src/lib/repository.ts`): mandatory `webhookUrl`, a single
  `automerge` issue label, `protectMainChecks` defaulting to `["build"]`, an
  unconditional webhook, and a CODEOWNERS `RepositoryFile` gated by a deferred
  Terraform `count` expression;
* the later revision (first document of the unnamed source file): optional
  `webhookUrl`, three issue labels, `protectMainChecks` defaulting to
  `["build", "license/cla"]`, review-gated branch protection, a conditional
  webhook, no CODEOWNERS file, and extra repository settings.

Constructor side effects on the ambient construct graph are modelled by returning
the list of emitted declarations in construction order.  `setOldId` (later
revision) only pins the logical id used by the Terraform state tracking; it does
not change any declaration's content, so it is the identity in this model.
-/

structure GithubProvider where
  id : Nat
deriving DecidableEq, Repr

structure ITeam where
  id : String
deriving DecidableEq, Repr

/-- The repository handle passed to `RepositorySetup`
(`Repository | DataGithubRepository`); only its `name` attribute is used. -/
structure RepositoryRef where
  name : String
deriving DecidableEq, Repr

structure RequiredStatusChecks where
  strict : Bool
  contexts : List String
deriving DecidableEq, Repr

structure RequiredPullRequestReviews where
  requiredApprovingReviewCount : Nat
  requireCodeOwnerReviews : Bool
  dismissStaleReviews : Bool
deriving DecidableEq, Repr

structure WebhookConfiguration where
  url : String
  contentType : String
deriving DecidableEq, Repr

/-- One auxiliary resource declaration emitted into the construct graph.
Fields absent in a revision's construction call are `[]`/`none`. -/
inductive Decl where
  | issueLabel (color : String) (name : String) (repository : String)
      (provider : GithubProvider)
  | branchProtection (pattern : String) (repositoryId : String)
      (enforceAdmins : Bool) (allowsDeletions : Bool) (allowsForcePushes : Bool)
      (requiredPullRequestReviews : List RequiredPullRequestReviews)
      (requireConversationResolution : Option Bool)
      (requiredStatusChecks : List RequiredStatusChecks)
      (provider : GithubProvider)
  | teamRepository (repository : String) (teamId : String) (permission : String)
      (provider : GithubProvider)
  | repositoryWebhook (repository : String) (configuration : WebhookConfiguration)
      (events : List String) (provider : GithubProvider)
  | repositoryFile (repository : String) (count : String) (file : String)
      (content : String)
deriving DecidableEq, Repr

/-- Config of the earlier-revision `RepositorySetup` (the `Pick` of
`RepositoryConfig` plus the repository handle); `webhookUrl` is mandatory there. -/
structure SetupConfigE where
  team : ITeam
  webhookUrl : String
  provider : GithubProvider
  protectMain : Option Bool
  protectMainChecks : Option (List String)
  repository : RepositoryRef
deriving DecidableEq, Repr

/-- Config of the later-revision `RepositorySetup`; `webhookUrl` became optional. -/
structure SetupConfigL where
  team : ITeam
  webhookUrl : Option String
  provider : GithubProvider
  protectMain : Option Bool
  protectMainChecks : Option (List String)
  repository : RepositoryRef
deriving DecidableEq, Repr

/-- The fixed CODEOWNERS content of the earlier revision
(`[...].join("\n")` in the source). -/
def codeownersContent : String :=
  String.intercalate "\n"
    ["# These owners will be the default owners for everything in ",
     "# the repo. Unless a later match takes precedence, ",
     "# they will be requested for review when someone opens a ",
     "# pull request.",
     "*       @cdktf/tf-cdk-team"]

/-- The deferred `count` template string built by the earlier revision:
the TypeScript template literal interpolates the repository name. -/
def codeownersCountExpr (name : String) : String :=
  "$\x7bregex(\"-go\", " ++ name ++ ") == \"-go\" ? 1 : 0\x7d"

/-- Substring occurrence on exploded strings (`pat` occurs somewhere in the list). -/
def listContainsSub (pat : List Char) : List Char → Bool
  | [] => pat.isEmpty
  | c :: rest => pat.isPrefixOf (c :: rest) || listContainsSub pat rest

/-- Modelled from the spec: the Terraform language's `regex` function (the
external provisioning runtime that evaluates the deferred CODEOWNERS `count`
expression, not part of this repository's sources), restricted to a literal
pattern: it returns the matched substring when the pattern occurs anywhere in
the string and raises an error (`none` here) when it does not match at all. -/
def tfRegexLiteral (pat s : String) : Option String :=
  if listContainsSub pat.toList s.toList then some pat else none

/-- Terraform-time value of the earlier revision's CODEOWNERS `count`
expression `regex("-go", name) == "-go" ? 1 : 0` for a given repository name:
`some "1"`/`some "0"` when it evaluates, `none` when `regex` errors. -/
def codeownersCountValue (name : String) : Option String :=
  match tfRegexLiteral "-go" name with
  | some m => some (if m = "-go" then "1" else "0")
  | none => none

/-- JavaScript `String.prototype.endsWith` as used by the TypeScript source. -/
def jsEndsWith (s pat : String) : Bool :=
  pat.toList.isSuffixOf s.toList

/-- JavaScript truthiness of a `string | undefined` value
(`undefined` and the empty string are falsy). -/
def truthyStr : Option String → Bool
  | none => false
  | some s => !(s = "")

/-- Earlier-revision `RepositorySetup` constructor (src/lib/repository.ts):
the declarations it adds to the graph, in construction order. -/
def repositorySetupE (config : SetupConfigE) : List Decl :=
  let protectMain := config.protectMain.getD false
  let protectMainChecks := config.protectMainChecks.getD ["build"]
  [Decl.issueLabel "5DC8DB" "automerge" config.repository.name config.provider]
  ++ (if protectMain then
        [Decl.branchProtection "main" config.repository.name true false false
          [] none [⟨true, protectMainChecks⟩] config.provider]
      else [])
  ++ [Decl.teamRepository config.repository.name config.team.id "admin"
        config.provider]
  ++ [Decl.repositoryWebhook config.repository.name ⟨config.webhookUrl, "json"⟩
        ["issues"] config.provider]
  ++ [Decl.repositoryFile config.repository.name
        (codeownersCountExpr config.repository.name) ".github/CODEOWNERS"
        codeownersContent]

/-- Later-revision `RepositorySetup` constructor: the declarations it adds to
the graph, in construction order (`setOldId` is the identity on content). -/
def repositorySetupL (config : SetupConfigL) : List Decl :=
  let protectMain := config.protectMain.getD false
  let protectMainChecks := config.protectMainChecks.getD ["build", "license/cla"]
  [Decl.issueLabel "5DC8DB" "automerge" config.repository.name config.provider,
   Decl.issueLabel "EE2222" "no-auto-close" config.repository.name config.provider,
   Decl.issueLabel "8BF8BD" "auto-approve" config.repository.name config.provider]
  ++ (if protectMain then
        [Decl.branchProtection "main" config.repository.name true false false
          [⟨1, false, false⟩] (some true) [⟨true, protectMainChecks⟩]
          config.provider]
      else [])
  ++ [Decl.teamRepository config.repository.name config.team.id "admin"
        config.provider]
  ++ (match config.webhookUrl with
      | some url =>
        if url = "" then []
        else [Decl.repositoryWebhook config.repository.name ⟨url, "json"⟩
                ["issues"] config.provider]
      | none => [])

/-- Full `RepositoryConfig` of the earlier revision. -/
structure RepositoryConfigE where
  description : Option String
  topics : Option (List String)
  team : ITeam
  protectMain : Option Bool
  protectMainChecks : Option (List String)
  webhookUrl : String
  provider : GithubProvider
deriving DecidableEq, Repr

/-- Full `RepositoryConfig` of the later revision (`webhookUrl` optional). -/
structure RepositoryConfigL where
  description : Option String
  topics : Option (List String)
  team : ITeam
  protectMain : Option Bool
  protectMainChecks : Option (List String)
  webhookUrl : Option String
  provider : GithubProvider
deriving DecidableEq, Repr

/-- `GithubRepository.defaultTopics`, identical in both revisions. -/
def GithubRepository.defaultTopics : List String :=
  ["cdktf", "terraform", "terraform-cdk", "cdk", "provider", "pre-built-provider"]

/-- The default `description`, identical in both revisions. -/
def defaultDescription : String :=
  "Repository management for prebuilt cdktf providers via cdktf"

/-- The `Repository` resource as declared by the earlier-revision
`GithubRepository` constructor. -/
structure RepositoryResourceE where
  name : String
  description : String
  visibility : String
  homepageUrl : String
  hasIssues : Bool
  hasWiki : Bool
  autoInit : Bool
  hasProjects : Bool
  deleteBranchOnMerge : Bool
  topics : List String
  provider : GithubProvider
deriving DecidableEq, Repr

/-- The `Repository` resource as declared by the later-revision
`GithubRepository` constructor (extra settings). -/
structure RepositoryResourceL where
  name : String
  description : String
  archiveOnDestroy : Bool
  visibility : String
  homepageUrl : String
  hasIssues : Bool
  hasWiki : Bool
  autoInit : Bool
  hasProjects : Bool
  deleteBranchOnMerge : Bool
  allowAutoMerge : Bool
  allowUpdateBranch : Bool
  squashMergeCommitMessage : String
  squashMergeCommitTitle : String
  vulnerabilityAlerts : Bool
  topics : List String
  provider : GithubProvider
deriving DecidableEq, Repr

/-- The `new Repository(this, "repo", ...)` declaration of the earlier-revision
`GithubRepository` constructor. -/
def githubRepositoryResourceE (name : String) (config : RepositoryConfigE) :
    RepositoryResourceE :=
  { name := name
    description := config.description.getD defaultDescription
    visibility := "public"
    homepageUrl := "https://cdk.tf"
    hasIssues := true
    hasWiki := false
    autoInit := true
    hasProjects := false
    deleteBranchOnMerge := true
    topics := config.topics.getD GithubRepository.defaultTopics
    provider := config.provider }

/-- The `new Repository(this, "repo", ...)` declaration of the later-revision
`GithubRepository` constructor. -/
def githubRepositoryResourceL (name : String) (config : RepositoryConfigL) :
    RepositoryResourceL :=
  { name := name
    description := config.description.getD defaultDescription
    archiveOnDestroy := true
    visibility := "public"
    homepageUrl := "https://cdk.tf"
    hasIssues := !(jsEndsWith name "-go")
    hasWiki := false
    autoInit := true
    hasProjects := false
    deleteBranchOnMerge := true
    allowAutoMerge := true
    allowUpdateBranch := true
    squashMergeCommitMessage := "PR_BODY"
    squashMergeCommitTitle := "PR_TITLE"
    vulnerabilityAlerts := true
    topics := config.topics.getD GithubRepository.defaultTopics
    provider := config.provider }

/-- Auxiliary declarations emitted by the earlier-revision `GithubRepository`
constructor through its nested `RepositorySetup` (spreading the config and
passing `this.resource` as the repository handle). -/
def githubRepositoryDeclsE (name : String) (config : RepositoryConfigE) :
    List Decl :=
  repositorySetupE
    { team := config.team
      webhookUrl := config.webhookUrl
      provider := config.provider
      protectMain := config.protectMain
      protectMainChecks := config.protectMainChecks
      repository := ⟨(githubRepositoryResourceE name config).name⟩ }

/-- Auxiliary declarations emitted by the later-revision `GithubRepository`
constructor through its nested `RepositorySetup`. -/
def githubRepositoryDeclsL (name : String) (config : RepositoryConfigL) :
    List Decl :=
  repositorySetupL
    { team := config.team
      webhookUrl := config.webhookUrl
      provider := config.provider
      protectMain := config.protectMain
      protectMainChecks := config.protectMainChecks
      repository := ⟨(githubRepositoryResourceL name config).name⟩ }

/-- A secret-binding declaration produced via `SecretFromVariable`. -/
structure SecretBinding where
  secretName : String
  repositoryName : String
  provider : GithubProvider
deriving DecidableEq, Repr

/-- Modelled from the spec: `SecretFromVariable` lives in `src/lib/secrets.ts`,
which is not among the provided sources.  Per the spec, `variable.for(resource,
provider)` "resolves a secret's value from an external variable source and binds
it to the repository/provider pair", i.e. it produces exactly one secret-binding
declaration for the given repository and provider. -/
def SecretFromVariable.forRepository (secretName : String)
    (repository : RepositoryRef) (provider : GithubProvider) :
    List SecretBinding :=
  [⟨secretName, repository.name, provider⟩]

/-- State of an earlier-revision `GithubRepository` instance
(`this.resource` and `this.provider`). -/
structure GithubRepositoryE where
  resource : RepositoryResourceE
  provider : GithubProvider
deriving DecidableEq, Repr

/-- State of a later-revision `GithubRepository` instance. -/
structure GithubRepositoryL where
  resource : RepositoryResourceL
  provider : GithubProvider
deriving DecidableEq, Repr

def mkGithubRepositoryE (name : String) (config : RepositoryConfigE) :
    GithubRepositoryE :=
  ⟨githubRepositoryResourceE name config, config.provider⟩

def mkGithubRepositoryL (name : String) (config : RepositoryConfigL) :
    GithubRepositoryL :=
  ⟨githubRepositoryResourceL name config, config.provider⟩

/-- `GithubRepository.addSecret(name)` of the earlier revision:
`new SecretFromVariable(this, name)` then `variable.for(this.resource,
this.provider)`. -/
def GithubRepositoryE.addSecret (g : GithubRepositoryE) (name : String) :
    List SecretBinding :=
  SecretFromVariable.forRepository name ⟨g.resource.name⟩ g.provider

/-- `GithubRepository.addSecret(name)` of the later revision. -/
def GithubRepositoryL.addSecret (g : GithubRepositoryL) (name : String) :
    List SecretBinding :=
  SecretFromVariable.forRepository name ⟨g.resource.name⟩ g.provider

/-- Config of the earlier-revision `GithubRepositoryFromExistingRepository`:
only `team`, `webhookUrl` and `provider` are picked from `RepositoryConfig`, so
`protectMain`/`protectMainChecks` cannot be supplied. -/
structure ExistingRepoConfigE where
  team : ITeam
  webhookUrl : String
  provider : GithubProvider
  repositoryName : String
deriving DecidableEq, Repr

/-- Earlier-revision `GithubRepositoryFromExistingRepository`: a
`DataGithubRepository` lookup (whose `name` attribute is the requested name)
followed by `RepositorySetup`; the spread config has no `protectMain` or
`protectMainChecks` fields. -/
def githubRepositoryFromExistingRepositoryE (config : ExistingRepoConfigE) :
    List Decl :=
  repositorySetupE
    { team := config.team
      webhookUrl := config.webhookUrl
      provider := config.provider
      protectMain := none
      protectMainChecks := none
      repository := ⟨config.repositoryName⟩ }

/-- Later-revision `GithubRepositoryFromExistingRepository`: its config extends
the full `RepositoryConfig`, so the spread forwards `protectMain` and
`protectMainChecks` to `RepositorySetup`. -/
def githubRepositoryFromExistingRepositoryL (config : RepositoryConfigL)
    (repositoryName : String) : List Decl :=
  repositorySetupL
    { team := config.team
      webhookUrl := config.webhookUrl
      provider := config.provider
      protectMain := config.protectMain
      protectMainChecks := config.protectMainChecks
      repository := ⟨repositoryName⟩ }

def Decl.isBranchProtection : Decl → Bool
  | .branchProtection .. => true
  | _ => false

def Decl.isWebhook : Decl → Bool
  | .repositoryWebhook .. => true
  | _ => false

def Decl.isRepositoryFile : Decl → Bool
  | .repositoryFile .. => true
  | _ => false

def Decl.isTeamRepository : Decl → Bool
  | .teamRepository .. => true
  | _ => false

/-- The repository name a declaration references (`repository` field, or
`repositoryId` for branch protection). -/
def Decl.repositoryName : Decl → String
  | .issueLabel _ _ r _ => r
  | .branchProtection _ r _ _ _ _ _ _ _ => r
  | .teamRepository r _ _ _ => r
  | .repositoryWebhook r _ _ _ => r
  | .repositoryFile r _ _ _ => r

/-- The kind of a declaration, for stating emission order. -/
inductive DeclKind where
  | issueLabel
  | branchProtection
  | teamRepository
  | repositoryWebhook
  | repositoryFile
deriving DecidableEq, Repr

def Decl.kind : Decl → DeclKind
  | .issueLabel .. => .issueLabel
  | .branchProtection .. => .branchProtection
  | .teamRepository .. => .teamRepository
  | .repositoryWebhook .. => .repositoryWebhook
  | .repositoryFile .. => .repositoryFile

/-- The names of the issue labels among a declaration list, in order. -/
def labelNames (ds : List Decl) : List String :=
  ds.filterMap fun d =>
    match d with
    | .issueLabel _ n _ _ => some n
    | _ => none

/-- Claim C1, evaluated at the failing input: the repository name
"cdktf-provider-google" does not end in "-go", yet the earlier revision's
deferred count expression evaluates to "1" (not "0") at it, because Terraform's
`regex("-go", name)` matches the substring "-go" inside "-google"; the graph
contains one CODEOWNERS `RepositoryFile` declaration for that name, where the
claim (and the source's own comment "Only for go provider repositories")
requires zero.  Moreover for a name without "-go" at all the expression does
not evaluate to "0": `regex` raises an error. -/
theorem c1_codeowners_gate_failing_input :
    jsEndsWith "cdktf-provider-google" "-go" = false ∧
    codeownersCountValue "cdktf-provider-google" = some "1" ∧
    (repositorySetupE ⟨⟨"1234"⟩, "https://hooks.example", ⟨0⟩, none, none,
        ⟨"cdktf-provider-google"⟩⟩).filter Decl.isRepositoryFile =
      [Decl.repositoryFile "cdktf-provider-google"
        (codeownersCountExpr "cdktf-provider-google") ".github/CODEOWNERS"
        codeownersContent] ∧
    codeownersCountValue "cdktf-provider-aws" = none :=
  ⟨by decide, by decide, rfl, by decide⟩

/-- Claim C2: in the later revision, a falsy `webhookUrl` (absent or empty)
means zero webhook declarations, silently; a truthy one means exactly one
webhook declaration posting JSON to that URL and subscribed only to the
`issues` event.  In the earlier revision the webhook declaration is always
emitted. -/
theorem c2_webhook_conditional :
    (∀ config : SetupConfigL,
      (repositorySetupL config).filter Decl.isWebhook =
        (match config.webhookUrl with
         | none => []
         | some url =>
           if url = "" then []
           else [Decl.repositoryWebhook config.repository.name ⟨url, "json"⟩
                   ["issues"] config.provider])) ∧
    (∀ config : SetupConfigE,
      (repositorySetupE config).filter Decl.isWebhook =
        [Decl.repositoryWebhook config.repository.name
          ⟨config.webhookUrl, "json"⟩ ["issues"] config.provider]) := by
  constructor
  · rintro ⟨team, url?, provider, pm, pmc, repo⟩
    rcases pm with _ | pm
    · rcases url? with _ | url
      · rfl
      · by_cases hu : url = "" <;>
          simp [repositorySetupL, hu, List.filter, Decl.isWebhook]
    · rcases url? with _ | url
      · cases pm <;> rfl
      · by_cases hu : url = "" <;> cases pm <;>
          simp [repositorySetupL, hu, List.filter, Decl.isWebhook,
            Decl.isBranchProtection]
  · rintro ⟨team, url, provider, pm, pmc, repo⟩
    rcases pm with _ | pm
    · rfl
    · cases pm <;> rfl

/-- Claim C10: the earlier revision's `GithubRepositoryFromExistingRepository`
can never emit a branch-protection declaration (its config type has no
`protectMain`, which therefore defaults to false in `RepositorySetup`), while
the later revision's variant, whose config extends the full `RepositoryConfig`,
can. -/
theorem c10_existing_repository_never_protected_early :
    (∀ config : ExistingRepoConfigE,
      (githubRepositoryFromExistingRepositoryE config).filter
        Decl.isBranchProtection = []) ∧
    ∃ (config : RepositoryConfigL) (repositoryName : String),
      (githubRepositoryFromExistingRepositoryL config repositoryName).filter
        Decl.isBranchProtection ≠ [] := by
  refine ⟨fun config => rfl, ⟨none, none, ⟨"1234"⟩, some true, none,
    some "https://hooks.example", ⟨0⟩⟩, "cdktf-provider-aws", ?_⟩
  decide

/-- Claim C3: with `protectMain = true` and no `protectMainChecks` override,
both revisions emit exactly one branch-protection declaration on pattern
"main" with `enforceAdmins = true`, deletions and force-pushes disallowed, and
strict required status checks equal to the revision default (`["build"]` in the
earlier revision, `["build", "license/cla"]` in the later one); the later
revision additionally requires exactly one approving review (code-owner review
not required) and conversation resolution. -/
theorem c3_protect_main_defaults (ce : SetupConfigE) (cl : SetupConfigL)
    (he : ce.protectMain = some true) (he2 : ce.protectMainChecks = none)
    (hl : cl.protectMain = some true) (hl2 : cl.protectMainChecks = none) :
    (repositorySetupE ce).filter Decl.isBranchProtection =
      [Decl.branchProtection "main" ce.repository.name true false false [] none
        [⟨true, ["build"]⟩] ce.provider] ∧
    (repositorySetupL cl).filter Decl.isBranchProtection =
      [Decl.branchProtection "main" cl.repository.name true false false
        [⟨1, false, false⟩] (some true) [⟨true, ["build", "license/cla"]⟩]
        cl.provider] := by
  constructor
  · simp [repositorySetupE, he, he2, List.filter, Decl.isBranchProtection]
  · rcases hw : cl.webhookUrl with _ | url
    · simp [repositorySetupL, hl, hl2, hw, List.filter, Decl.isBranchProtection]
    · by_cases hu : url = "" <;>
        simp [repositorySetupL, hl, hl2, hw, hu, List.filter,
          Decl.isBranchProtection]

/-- Claim C3 witness at concrete configurations of both revisions. -/
theorem c3_protect_main_defaults_witness :
    ((⟨⟨"1234"⟩, "https://hooks.example", ⟨0⟩, some true, none,
        ⟨"cdktf-provider-aws"⟩⟩ : SetupConfigE).protectMain = some true ∧
      (⟨⟨"1234"⟩, "https://hooks.example", ⟨0⟩, some true, none,
        ⟨"cdktf-provider-aws"⟩⟩ : SetupConfigE).protectMainChecks = none ∧
      (⟨⟨"1234"⟩, some "https://hooks.example", ⟨0⟩, some true, none,
        ⟨"cdktf-provider-aws"⟩⟩ : SetupConfigL).protectMain = some true ∧
      (⟨⟨"1234"⟩, some "https://hooks.example", ⟨0⟩, some true, none,
        ⟨"cdktf-provider-aws"⟩⟩ : SetupConfigL).protectMainChecks = none) ∧
    (repositorySetupE ⟨⟨"1234"⟩, "https://hooks.example", ⟨0⟩, some true, none,
        ⟨"cdktf-provider-aws"⟩⟩).filter Decl.isBranchProtection =
      [Decl.branchProtection "main" "cdktf-provider-aws" true false false []
        none [⟨true, ["build"]⟩] ⟨0⟩] ∧
    (repositorySetupL ⟨⟨"1234"⟩, some "https://hooks.example", ⟨0⟩, some true,
        none, ⟨"cdktf-provider-aws"⟩⟩).filter Decl.isBranchProtection =
      [Decl.branchProtection "main" "cdktf-provider-aws" true false false
        [⟨1, false, false⟩] (some true) [⟨true, ["build", "license/cla"]⟩]
        ⟨0⟩] :=
  ⟨⟨rfl, rfl, rfl, rfl⟩,
    c3_protect_main_defaults _ _ rfl rfl rfl rfl⟩

/-- Claim C4: with `protectMain = false`, or with `protectMain` omitted (it
defaults to false), neither revision emits a branch-protection declaration,
and this omission is silent. -/
theorem c4_no_protection_when_false_or_omitted (ce : SetupConfigE)
    (cl : SetupConfigL)
    (he : ce.protectMain = some false ∨ ce.protectMain = none)
    (hl : cl.protectMain = some false ∨ cl.protectMain = none) :
    (repositorySetupE ce).filter Decl.isBranchProtection = [] ∧
    (repositorySetupL cl).filter Decl.isBranchProtection = [] := by
  have he' : ce.protectMain.getD false = false := by
    rcases he with h | h <;> simp [h]
  have hl' : cl.protectMain.getD false = false := by
    rcases hl with h | h <;> simp [h]
  constructor
  · simp [repositorySetupE, he', List.filter, Decl.isBranchProtection]
  · rcases hw : cl.webhookUrl with _ | url
    · simp [repositorySetupL, hl', hw, List.filter, Decl.isBranchProtection]
    · by_cases hu : url = "" <;>
        simp [repositorySetupL, hl', hw, hu, List.filter,
          Decl.isBranchProtection]

/-- Claim C4 witness: `protectMain = some false` in the earlier revision and
omitted (`none`) in the later one. -/
theorem c4_no_protection_when_false_or_omitted_witness :
    ((⟨⟨"1234"⟩, "https://hooks.example", ⟨0⟩, some false, none,
        ⟨"cdktf-provider-aws"⟩⟩ : SetupConfigE).protectMain = some false ∧
      (⟨⟨"1234"⟩, none, ⟨0⟩, none, none,
        ⟨"cdktf-provider-aws"⟩⟩ : SetupConfigL).protectMain = none) ∧
    (repositorySetupE ⟨⟨"1234"⟩, "https://hooks.example", ⟨0⟩, some false,
        none, ⟨"cdktf-provider-aws"⟩⟩).filter Decl.isBranchProtection = [] ∧
    (repositorySetupL ⟨⟨"1234"⟩, none, ⟨0⟩, none, none,
        ⟨"cdktf-provider-aws"⟩⟩).filter Decl.isBranchProtection = [] :=
  ⟨⟨rfl, rfl⟩,
    c4_no_protection_when_false_or_omitted _ _ (Or.inl rfl) (Or.inr rfl)⟩

/-- Claim C5: every declaration emitted by `RepositorySetup` — each issue
label, the branch-protection rule when present, the team-permission binding,
the webhook when present and (earlier revision) the CODEOWNERS file —
references the repository name of the handle passed in the config, in both
revisions. -/
theorem c5_declarations_reference_parent_repository (ce : SetupConfigE)
    (cl : SetupConfigL) (d : Decl) :
    (d ∈ repositorySetupE ce → d.repositoryName = ce.repository.name) ∧
    (d ∈ repositorySetupL cl → d.repositoryName = cl.repository.name) := by
  constructor
  · intro hd
    cases hp : ce.protectMain.getD false <;>
      simp [repositorySetupE, hp] at hd <;>
      rcases hd with rfl | rfl | rfl | rfl | rfl <;> rfl
  · intro hd
    rcases hw : cl.webhookUrl with _ | url
    · cases hp : cl.protectMain.getD false <;>
        simp [repositorySetupL, hp, hw] at hd <;>
        rcases hd with rfl | rfl | rfl | rfl | rfl <;> rfl
    · by_cases hu : url = "" <;> cases hp : cl.protectMain.getD false <;>
        simp [repositorySetupL, hp, hw, hu] at hd <;>
        rcases hd with rfl | rfl | rfl | rfl | rfl | rfl <;> rfl

/-- Claim C5 witness: the team-permission binding emitted at a concrete config
references that config's repository name. -/
theorem c5_declarations_reference_parent_repository_witness :
    Decl.teamRepository "cdktf-provider-aws" "1234" "admin" ⟨0⟩ ∈
      repositorySetupE ⟨⟨"1234"⟩, "https://hooks.example", ⟨0⟩, none, none,
        ⟨"cdktf-provider-aws"⟩⟩ ∧
    Decl.repositoryName
        (Decl.teamRepository "cdktf-provider-aws" "1234" "admin" ⟨0⟩) =
      "cdktf-provider-aws" :=
  ⟨by decide,
    (c5_declarations_reference_parent_repository
      ⟨⟨"1234"⟩, "https://hooks.example", ⟨0⟩, none, none,
        ⟨"cdktf-provider-aws"⟩⟩
      ⟨⟨"1234"⟩, none, ⟨0⟩, none, none, ⟨"cdktf-provider-aws"⟩⟩
      (Decl.teamRepository "cdktf-provider-aws" "1234" "admin" ⟨0⟩)).1
      (by decide)⟩

/-- Claim C6: when `topics` is omitted, the repository declaration created by
`GithubRepository` has exactly the static default topic list, in order; when
`topics` is supplied it is used unchanged — in both revisions. -/
theorem c6_topics_defaulting (name : String) (ce : RepositoryConfigE)
    (cl : RepositoryConfigL) :
    ((githubRepositoryResourceE name ce).topics =
      match ce.topics with
      | none => ["cdktf", "terraform", "terraform-cdk", "cdk", "provider",
          "pre-built-provider"]
      | some ts => ts) ∧
    ((githubRepositoryResourceL name cl).topics =
      match cl.topics with
      | none => ["cdktf", "terraform", "terraform-cdk", "cdk", "provider",
          "pre-built-provider"]
      | some ts => ts) := by
  constructor
  · rcases ce with ⟨d, topics, rest⟩
    cases topics <;> rfl
  · rcases cl with ⟨d, topics, rest⟩
    cases topics <;> rfl

/-- Claim C7: every repository declaration of `GithubRepository` has public
visibility, homepage "https://cdk.tf", wiki disabled, auto-init enabled,
projects disabled and delete-branch-on-merge enabled; the later revision
additionally has archive-on-destroy, auto-merge and update-branch allowed,
fixed squash-merge message/title policies, vulnerability alerts enabled, and
issues enabled iff the name does not end in "-go", while the earlier revision
always enables issues. -/
theorem c7_repository_baseline (name : String) (ce : RepositoryConfigE)
    (cl : RepositoryConfigL) :
    ((githubRepositoryResourceE name ce).visibility = "public" ∧
     (githubRepositoryResourceE name ce).homepageUrl = "https://cdk.tf" ∧
     (githubRepositoryResourceE name ce).hasWiki = false ∧
     (githubRepositoryResourceE name ce).autoInit = true ∧
     (githubRepositoryResourceE name ce).hasProjects = false ∧
     (githubRepositoryResourceE name ce).deleteBranchOnMerge = true ∧
     (githubRepositoryResourceE name ce).hasIssues = true) ∧
    ((githubRepositoryResourceL name cl).visibility = "public" ∧
     (githubRepositoryResourceL name cl).homepageUrl = "https://cdk.tf" ∧
     (githubRepositoryResourceL name cl).hasWiki = false ∧
     (githubRepositoryResourceL name cl).autoInit = true ∧
     (githubRepositoryResourceL name cl).hasProjects = false ∧
     (githubRepositoryResourceL name cl).deleteBranchOnMerge = true ∧
     (githubRepositoryResourceL name cl).archiveOnDestroy = true ∧
     (githubRepositoryResourceL name cl).allowAutoMerge = true ∧
     (githubRepositoryResourceL name cl).allowUpdateBranch = true ∧
     (githubRepositoryResourceL name cl).squashMergeCommitMessage = "PR_BODY" ∧
     (githubRepositoryResourceL name cl).squashMergeCommitTitle = "PR_TITLE" ∧
     (githubRepositoryResourceL name cl).vulnerabilityAlerts = true ∧
     ((githubRepositoryResourceL name cl).hasIssues = true ↔
       jsEndsWith name "-go" = false)) := by
  refine ⟨⟨rfl, rfl, rfl, rfl, rfl, rfl, rfl⟩,
    rfl, rfl, rfl, rfl, rfl, rfl, rfl, rfl, rfl, rfl, rfl, rfl, ?_⟩
  cases h : jsEndsWith name "-go" <;> simp [githubRepositoryResourceL, h]

/-- Claim C8: `RepositorySetup` emits its declarations in a fixed order — the
issue labels first (one `automerge` label in the earlier revision; `automerge`,
`no-auto-close` and `auto-approve` in the later one, all unconditional), then
the optional branch-protection rule, then an unconditional team-permission
binding granting `admin` to `team.id`, then the webhook, and (earlier revision
only) the CODEOWNERS file last. -/
theorem c8_emission_order (ce : SetupConfigE) (cl : SetupConfigL) :
    ((repositorySetupE ce).map Decl.kind =
      [DeclKind.issueLabel] ++
      (if ce.protectMain.getD false then [DeclKind.branchProtection] else []) ++
      [DeclKind.teamRepository, DeclKind.repositoryWebhook,
        DeclKind.repositoryFile]) ∧
    labelNames (repositorySetupE ce) = ["automerge"] ∧
    ((repositorySetupL cl).map Decl.kind =
      [DeclKind.issueLabel, DeclKind.issueLabel, DeclKind.issueLabel] ++
      (if cl.protectMain.getD false then [DeclKind.branchProtection] else []) ++
      [DeclKind.teamRepository] ++
      (if truthyStr cl.webhookUrl then [DeclKind.repositoryWebhook] else [])) ∧
    labelNames (repositorySetupL cl) = ["automerge", "no-auto-close",
      "auto-approve"] ∧
    (repositorySetupE ce).filter Decl.isTeamRepository =
      [Decl.teamRepository ce.repository.name ce.team.id "admin" ce.provider] ∧
    (repositorySetupL cl).filter Decl.isTeamRepository =
      [Decl.teamRepository cl.repository.name cl.team.id "admin" cl.provider] := by
  refine ⟨?_, ?_, ?_, ?_, ?_, ?_⟩
  · cases hp : ce.protectMain.getD false <;>
      simp [repositorySetupE, hp, Decl.kind]
  · cases hp : ce.protectMain.getD false <;>
      simp [repositorySetupE, hp, labelNames, List.filterMap]
  · rcases hw : cl.webhookUrl with _ | url
    · cases hp : cl.protectMain.getD false <;>
        simp [repositorySetupL, hp, hw, Decl.kind, truthyStr]
    · by_cases hu : url = "" <;> cases hp : cl.protectMain.getD false <;>
        simp [repositorySetupL, hp, hw, hu, Decl.kind, truthyStr]
  · rcases hw : cl.webhookUrl with _ | url
    · cases hp : cl.protectMain.getD false <;>
        simp [repositorySetupL, hp, hw, labelNames, List.filterMap]
    · by_cases hu : url = "" <;> cases hp : cl.protectMain.getD false <;>
        simp [repositorySetupL, hp, hw, hu, labelNames, List.filterMap]
  · cases hp : ce.protectMain.getD false <;>
      simp [repositorySetupE, hp, List.filter, Decl.isTeamRepository]
  · rcases hw : cl.webhookUrl with _ | url
    · cases hp : cl.protectMain.getD false <;>
        simp [repositorySetupL, hp, hw, List.filter, Decl.isTeamRepository]
    · by_cases hu : url = "" <;> cases hp : cl.protectMain.getD false <;>
        simp [repositorySetupL, hp, hw, hu, List.filter,
          Decl.isTeamRepository]

/-- Claim C9: `addSecret(name)` produces exactly one secret-binding
declaration, referencing the repository resource created by that
`GithubRepository` instance and the provider it was constructed with, in both
revisions (via the spec-modelled `SecretFromVariable`). -/
theorem c9_add_secret_single_binding (secretName repoName : String)
    (ce : RepositoryConfigE) (cl : RepositoryConfigL) :
    (mkGithubRepositoryE repoName ce).addSecret secretName =
      [⟨secretName, (mkGithubRepositoryE repoName ce).resource.name,
        (mkGithubRepositoryE repoName ce).provider⟩] ∧
    (mkGithubRepositoryL repoName cl).addSecret secretName =
      [⟨secretName, (mkGithubRepositoryL repoName cl).resource.name,
        (mkGithubRepositoryL repoName cl).provider⟩] :=
  ⟨rfl, rfl⟩
